import Mathlib

/-!
Verification of the PDScan scanning and matching pipeline.

Shallow embedding of the pure logic of
`pdscan/internal/match_finder.py`, `pdscan/internal/rules.py`,
`pdscan/internal/scan_opts.py` and
`pdscan/internal/oracle_adapter_async.py`.

Strings are modelled as `List Char`; Python whitespace and digit
predicates are modelled by `Char.isWhitespace` and `Char.isDigit`
(the values scanned are ordinary text, where these agree with the
Python semantics).  Wall-clock durations are modelled as exact
rationals (seconds); `int(x * 0.8)` and `int(x * 1.2)` on batch sizes
are modelled as the exact floor divisions `x * 4 / 5` and `x * 6 / 5`,
which agree with the Python float computation for all realistic sizes.
-/

namespace PDScan

/-- Python substring test `needle` is a prefix of `hay` (char lists). -/
def listStartsWith : List Char → List Char → Bool
  | [], _ => true
  | _ :: _, [] => false
  | a :: as, b :: bs => a == b && listStartsWith as bs

/-- Python `needle in hay` substring containment on char lists. -/
def py_contains (hay needle : List Char) : Bool :=
  match hay with
  | [] => needle.isEmpty
  | _ :: t => listStartsWith needle hay || py_contains t needle

/-- Python `str.isdigit()`: nonempty and every character a digit. -/
def py_isdigit (v : List Char) : Bool :=
  !v.isEmpty && v.all Char.isDigit

/-- Python `any(c.isdigit() for c in value)`. -/
def has_digit (v : List Char) : Bool :=
  v.any Char.isDigit

/-- Python `str.lower()` modelled character-wise. -/
def py_lower (v : List Char) : List Char :=
  v.map Char.toLower

/-! ## match_finder.py: value normalization and match dedup -/

/-- Helper for Python `str.split()`: split on whitespace runs,
dropping empty pieces.  `acc` is the current word, reversed. -/
def py_words_aux : List Char → List Char → List (List Char)
  | [], acc => if acc.isEmpty then [] else [acc.reverse]
  | c :: cs, acc =>
    if c.isWhitespace then
      if acc.isEmpty then py_words_aux cs []
      else acc.reverse :: py_words_aux cs []
    else py_words_aux cs (c :: acc)

/-- Python `str.split()` (split on whitespace, no empty pieces). -/
def py_words (v : List Char) : List (List Char) :=
  py_words_aux v []

/-- Embedding of `MatchFinder._normalize_value`: strip, collapse internal whitespace
runs to a single space, lowercase.  `re.sub(r"\s+", " ", v.strip()).lower()`
equals `" ".join(v.split()).lower()`. -/
def normalize_value (v : List Char) : List Char :=
  py_lower (List.intercalate [' '] (py_words v))

/-- Embedding of `rules.RuleMatch`, values kept as char lists. -/
structure RuleMatchL where
  name : String
  display_name : String
  confidence : String
  location : String
  values : List (List Char)
  deriving DecidableEq, Repr

/-- The `MatchFinder.matches` dictionary: insertion-ordered
association list keyed by the string `f"{rule_name}:{location}"`. -/
def MatchesState := List (String × RuleMatchL)

/-- Embedding of `MatchFinder._add_match`: create the record for the key on first
hit, then append the value only if its normalized form is not already
present among the normalized stored values. -/
def add_match (st : List (String × RuleMatchL))
    (rname rdisp rconf : String) (value : List Char) (location : String) :
    List (String × RuleMatchL) :=
  let key := rname ++ ":" ++ location
  let st :=
    if st.any (fun kv => kv.1 == key) then st
    else st ++ [(key, ⟨rname, rdisp, rconf, location, []⟩)]
  st.map (fun kv =>
    if kv.1 == key then
      if normalize_value value ∈ kv.2.values.map normalize_value then kv
      else (kv.1, { kv.2 with values := kv.2.values ++ [value] })
    else kv)

/-- One `_add_match` invocation: rule identity plus the matched value
and location. -/
structure AddCall where
  rname : String
  rdisp : String
  rconf : String
  value : List Char
  location : String
  deriving DecidableEq, Repr

/-- Run a sequence of `_add_match` calls from the empty dictionary
(`check_line` only mutates `matches` through `_add_match`). -/
def run_add_matches (calls : List AddCall) : List (String × RuleMatchL) :=
  calls.foldl (fun st c => add_match st c.rname c.rdisp c.rconf c.value c.location) []

/-! ## match_finder.py: token matching -/

/-- Connection-string token family checked by `_token_match`
(already lowercase in the source). -/
def conn_tokens : List (List Char) :=
  ["jdbc:".toList, "mysql://".toList, "postgresql://".toList,
   "mongodb://".toList, "redis://".toList, "oracle://".toList]

/-- Path-prefix token family checked by `_token_match`
(already lowercase in the source). -/
def path_tokens : List (List Char) :=
  ["/home/".toList, "/var/".toList, "c:\\".toList, "d:\\".toList,
   "/tmp/".toList, "/usr/".toList]

/-- The whole-word test of `_token_match`:
`f" {token_lower} " in f" {line_lower} "`, on already-lowered input. -/
def whole_word (line_lower token_lower : List Char) : Bool :=
  py_contains (' ' :: line_lower ++ [' ']) (' ' :: token_lower ++ [' '])

/-- Embedding of `MatchFinder._token_match`. -/
def token_match (line token : List Char) : Bool :=
  let ll := py_lower line
  let tl := py_lower token
  if whole_word ll tl then true
  else if py_contains ll tl then
    if conn_tokens.contains tl then
      py_contains ll "://".toList || py_contains ll "jdbc:".toList
    else if path_tokens.contains tl then
      py_contains ll ['/'] || py_contains ll ['\\']
    else true
  else false

/-- One entry of `MatchConfig.token_rules` (rules.py). -/
structure TokenRule where
  name : String
  display_name : String
  confidence : String
  tokens : List String
  deriving DecidableEq, Repr

/-- Embedding of `MatchConfig.token_rules`: the three token-list rules. -/
def token_rules : List TokenRule :=
  [ ⟨"api-key", "API Key", "high",
      ["api", "key", "secret", "token", "auth", "password", "pwd"]⟩,
    ⟨"database-connection", "Database Connection String", "high",
      ["jdbc:", "mysql://", "postgresql://", "mongodb://", "redis://", "oracle://"]⟩,
    ⟨"file-path", "File Path", "low",
      ["/home/", "/var/", "C:\\", "D:\\", "/tmp/", "/usr/"]⟩ ]

/-- Spec-side characterization of token matching, written from the
amended claim: a whole-word occurrence always hits; otherwise a
substring occurrence hits, with connection-string tokens additionally
requiring "://" or "jdbc:" in the line and path-prefix tokens
additionally requiring a path separator in the line; tokens outside
those two families hit on a plain substring occurrence. -/
def token_match_spec (line token : List Char) : Bool :=
  let ll := py_lower line
  let tl := py_lower token
  whole_word ll tl ||
    (py_contains ll tl &&
      (if conn_tokens.contains tl then
        py_contains ll "://".toList || py_contains ll "jdbc:".toList
      else if path_tokens.contains tl then
        py_contains ll ['/'] || py_contains ll ['\\']
      else true))

/-! ## scan_opts.py and match_finder.get_patterns -/

/-- Embedding of `match_finder.Pattern` (name, raw regex text, description). -/
structure PatternP where
  name : String
  regex : String
  description : String
  deriving DecidableEq, Repr

/-- Embedding of `ScanOptions` after `__init__` has run (the attributes the
matching pipeline reads). -/
structure ScanOptions where
  show_data : Bool
  show_all : Bool
  sample_size : Option Nat
  processes : Option Nat
  only : Option (List String)
  except_ : Option (List String)
  min_count : Option Nat
  pattern : Option String
  debug : Bool
  format : String
  only_patterns : Option (List String)
  except_patterns : Option (List String)
  deriving DecidableEq, Repr

/-- Python truthiness of an optional list (None and [] are falsy). -/
def truthy_list (o : Option (List String)) : Bool :=
  match o with
  | none => false
  | some l => !l.isEmpty

/-- Python truthiness of an optional string (None and "" are falsy). -/
def truthy_str (o : Option String) : Bool :=
  match o with
  | none => false
  | some s => !s.isEmpty

/-- Embedding of `ScanOptions.__init__`: every declared keyword is assigned to its
field, then `self.except_patterns = None` unconditionally, and finally
the trailing `**kwargs` loop runs `setattr` for each extra keyword.
`kw_except_patterns = some v` models the caller passing the undeclared
extra keyword `except_patterns=v`; `none` models its absence. -/
def mkScanOptions (show_data show_all : Bool) (sample_size processes : Option Nat)
    (only except_ : Option (List String)) (min_count : Option Nat)
    (pattern : Option String) (debug : Bool) (format : String)
    (only_patterns : Option (List String))
    (kw_except_patterns : Option (Option (List String))) : ScanOptions :=
  { show_data := show_data
    show_all := show_all
    sample_size := sample_size
    processes := processes
    only := only
    except_ := except_
    min_count := min_count
    pattern := pattern
    debug := debug
    format := format
    only_patterns := only_patterns
    except_patterns :=
      match kw_except_patterns with
      | none => none
      | some v => v }

/-- Embedding of `MatchFinder._get_default_patterns`: the 13 built-in patterns. -/
def default_patterns : List PatternP :=
  [ ⟨"email", "\\b[a-zA-Z0-9._%+-]+@[a-zA-Z0-9.-]+\\.[a-zA-Z]\x7b2,\x7d\\b",
      "Email address"⟩,
    ⟨"phone", "\\b(?:\\+\\d\x7b1,3\x7d\\s?)?\\(?\\d\x7b3\x7d\\)?[\\s.-]?\\d\x7b3\x7d[\\s.-]?\\d\x7b4\x7d\\b",
      "Phone number"⟩,
    ⟨"ssn", "\\b\\d\x7b3\x7d[-\\s]?\\d\x7b2\x7d[-\\s]?\\d\x7b4\x7d\\b",
      "Social Security Number"⟩,
    ⟨"credit_card",
      "(?:4\\d\x7b3\x7d(?:[\\-\\.\\s_\u2013]\\d\x7b4\x7d)\x7b3\x7d|5[1-5]\\d\x7b2\x7d(?:[\\-\\.\\s_\u2013]\\d\x7b4\x7d)\x7b3\x7d|3[47]\\d\x7b2\x7d[\\-\\.\\s_\u2013]\\d\x7b6\x7d[\\-\\.\\s_\u2013]\\d\x7b5\x7d|6011[\\-\\.\\s_\u2013]\\d\x7b4\x7d[\\-\\.\\s_\u2013]\\d\x7b4\x7d[\\-\\.\\s_\u2013]\\d\x7b4\x7d)",
      "Credit card number (Visa, MasterCard, AmEx, Discover)"⟩,
    ⟨"credit_card_masked", "\\b\\d\x7b4\x7d[-\\s]?[\\*X]\x7b4,8\x7d[-\\s]?\\d\x7b4\x7d\\b",
      "Masked credit card number"⟩,
    ⟨"ipv4", "\\b\\d\x7b1,3\x7d\\.\\d\x7b1,3\x7d\\.\\d\x7b1,3\x7d\\.\\d\x7b1,3\x7d\\b",
      "IPv4 address"⟩,
    ⟨"ipv6", "\\b(?:[A-F0-9]\x7b1,4\x7d:)\x7b7\x7d[A-F0-9]\x7b1,4\x7d\\b",
      "IPv6 address"⟩,
    ⟨"url", "https?://(?:[-\\w.]|(?:%[\\da-fA-F]\x7b2\x7d))+",
      "URL"⟩,
    ⟨"mac", "\\b(?:[0-9A-Fa-f]\x7b2\x7d[:-])\x7b5\x7d(?:[0-9A-Fa-f]\x7b2\x7d)\\b",
      "MAC address"⟩,
    ⟨"date", "\\b\\d\x7b4\x7d[-/]\\d\x7b1,2\x7d[-/]\\d\x7b1,2\x7d\\b",
      "Date (YYYY-MM-DD or YYYY/MM/DD)"⟩,
    ⟨"time", "\\b\\d\x7b1,2\x7d:\\d\x7b2\x7d(?::\\d\x7b2\x7d)?(?:\\s?[AP]M)?\\b",
      "Time (HH:MM:SS or HH:MM AM/PM)"⟩,
    ⟨"person_name", "\\b[A-Z][a-z]+ [A-Z][a-z]+\\b",
      "Person name (Vietnamese and English)"⟩,
    ⟨"company_name",
      "\\b[A-Z][a-zA-Z\\s&.,\x27-]+(?:Inc\\.|Corp\\.|LLC|Ltd\\.|Company|Co\\.|Technologies|Technology|Systems|Solutions|Services)\\b",
      "Company name"⟩ ]

/-- Embedding of `MatchFinder.get_patterns`: defaults filtered by the inclusion
filter, else by the exclusion filter, plus one ad-hoc pattern when a
raw regex was supplied. -/
def get_patterns (options : ScanOptions) : List PatternP :=
  let patterns := default_patterns
  let patterns :=
    if truthy_list options.only_patterns then
      patterns.filter (fun p => (options.only_patterns.getD []).contains p.name)
    else if truthy_list options.except_patterns then
      patterns.filter (fun p => !(options.except_patterns.getD []).contains p.name)
    else patterns
  if truthy_str options.pattern then
    patterns ++ [⟨"custom", options.pattern.getD "", "Custom pattern"⟩]
  else patterns

/-! ## oracle_adapter_async.py: early rejection, value cache, pattern loop -/

/-- Embedding of `OracleAdapterAsync._early_termination_check` (the `patterns`
argument of the source is unused there and omitted). -/
def early_termination_check (early_termination : Bool) (value : List Char) : Bool :=
  if !early_termination then false
  else
    let n := value.length
    if (value.contains '@' && value.contains '.')
        || (value.contains '-' && (n == 9 || n == 11)) then false
    else if n < 10 then true
    else if n > 1000 then true
    else if py_isdigit value && n < 13 then true
    else if !has_digit value then true
    else false

/-- A compiled pattern as the adapter uses it: a name and the
`re.Pattern.search` predicate on the value. -/
structure CompiledPattern where
  name : String
  search : List Char → Bool

/-- One element of the adapter match dictionaries
(a dict with keys pattern_name and matched_value). -/
structure MatchRec where
  pattern_name : String
  matched_value : List Char
  deriving DecidableEq, Repr

/-- Embedding of `OracleAdapterAsync._batch_match_patterns`: every pattern whose
search hits the value contributes a record. -/
def batch_match_patterns (value : List Char) (ps : List CompiledPattern) :
    List MatchRec :=
  ps.filterMap (fun p => if p.search value then some ⟨p.name, value⟩ else none)

/-- The per-pattern shape gates in `_optimized_pattern_matching`
(`continue` in the source is modelled as the gate returning false). -/
def pattern_gate (name : String) (value : List Char) : Bool :=
  let n := value.length
  if name == "credit_card" then
    !(n < 13) && !(n > 19) && has_digit value
  else if name == "email" then
    value.contains '@' && value.contains '.' && !(n < 5) && !(n > 254)
  else if name == "ssn" then
    !(n < 9) && !(n > 11) && has_digit value
  else true

/-- The pattern loop of `_optimized_pattern_matching`: gated search,
stopping at the first hit unless `show_all`. -/
def pattern_loop (show_all : Bool) (value : List Char) :
    List CompiledPattern → List MatchRec
  | [] => []
  | p :: rest =>
    if pattern_gate p.name value && p.search value then
      if show_all then ⟨p.name, value⟩ :: pattern_loop show_all value rest
      else [⟨p.name, value⟩]
    else pattern_loop show_all value rest

/-- Embedding of `OracleAdapterAsync._hash_value`: the MD5 digest used purely as a
cache key, modelled as an injective key function. -/
def hash_value (v : List Char) : List Char := v

/-- The `_value_cache` dictionary: hashed value to memoized result. -/
def ValueCache := List (List Char × List MatchRec)

/-- Dictionary lookup on the cache. -/
def cache_lookup (cache : List (List Char × List MatchRec)) (k : List Char) :
    Option (List MatchRec) :=
  match cache.find? (fun kv => kv.1 == k) with
  | some kv => some kv.2
  | none => none

/-- Dictionary assignment `cache[k] = v` (overwrite or append). -/
def cache_store (cache : List (List Char × List MatchRec)) (k : List Char)
    (v : List MatchRec) : List (List Char × List MatchRec) :=
  if cache.any (fun kv => kv.1 == k) then
    cache.map (fun kv => if kv.1 == k then (k, v) else kv)
  else cache ++ [(k, v)]

/-- Embedding of `OracleAdapterAsync._optimized_pattern_matching`: the returned
match list and the resulting value cache.  When pattern optimization
is off it falls back to plain matching; an early-rejected value
returns no matches before any search runs; a cached value returns the
memoized list; otherwise the gated loop runs and its result is cached
when value caching is on. -/
def optimized_pattern_matching (pattern_optimization early_termination
    value_caching show_all : Bool)
    (cache : List (List Char × List MatchRec)) (value : List Char)
    (ps : List CompiledPattern) :
    List MatchRec × List (List Char × List MatchRec) :=
  if !pattern_optimization then (batch_match_patterns value ps, cache)
  else if early_termination_check early_termination value then ([], cache)
  else
    match (if value_caching then cache_lookup cache (hash_value value) else none) with
    | some cached => (cached, cache)
    | none =>
      let ms := pattern_loop show_all value ps
      (ms, if value_caching then cache_store cache (hash_value value) ms else cache)

/-! ## oracle_adapter_async.py: adaptive batch sizing -/

/-- Embedding of `OracleAdapterAsync._adjust_batch_size`.  `batch_time` is the
batch duration in seconds; `int(x * 0.8)` and `int(x * 1.2)` become
the floor divisions `x * 4 / 5` and `x * 6 / 5`. -/
def adjust_batch_size (adaptive_batch : Bool) (min_b max_b : Nat)
    (current_batch_size : Nat) (batch_time : ℚ) : Nat :=
  if !adaptive_batch then current_batch_size
  else
    let target_time : ℚ := 1/2
    if batch_time > target_time * (3/2) then
      max min_b (current_batch_size * 4 / 5)
    else if batch_time < target_time * (1/2) then
      min max_b (current_batch_size * 6 / 5)
    else current_batch_size

/-- The guarded update in `_scan_table_streaming` (lines 745-746):
the size is adjusted only when adaptive batching is on and the batch
counter is a multiple of five. -/
def batch_size_step (adaptive_batch : Bool) (min_b max_b : Nat)
    (batch_count : Nat) (current : Nat) (batch_time : ℚ) : Nat :=
  if adaptive_batch && batch_count % 5 == 0 then
    adjust_batch_size adaptive_batch min_b max_b current batch_time
  else current

/-- The batch-size trajectory of the fetch loop in
`_scan_table_streaming`: starting from `batch_count` and the current
size, fold the observed batch durations, incrementing the counter
before each adjustment check exactly as the source loop does. -/
def stream_batch_sizes (adaptive_batch : Bool) (min_b max_b : Nat) :
    Nat → Nat → List ℚ → Nat
  | _, current, [] => current
  | batch_count, current, t :: rest =>
    stream_batch_sizes adaptive_batch min_b max_b (batch_count + 1)
      (batch_size_step adaptive_batch min_b max_b (batch_count + 1) current t) rest

/-- Spec-side adaptive policy, written from the amended claim: the
size shrinks by 20% (floored at the minimum) only when the duration
exceeds 1.5 times the 0.5s target, grows by 20% (capped at the
maximum) only when it is below 0.5 times the target, and is unchanged
in the band between. -/
def adjust_spec (min_b max_b current : Nat) (t : ℚ) : Nat :=
  if t > 3/4 then max min_b (current * 4 / 5)
  else if t < 1/4 then min max_b (current * 6 / 5)
  else current

/-! ## oracle_adapter_async.py: connect retry loop -/

/-- Outcome of `connect()`: pool created on the given (1-based)
attempt after sleeping the listed delays, the final error re-raised
after sleeping the listed delays, or the loop body never entered
(`retry_attempts = 0`, the method returns without connecting). -/
inductive ConnectResult where
  | connected (attempts : Nat) (delays : List Nat)
  | raised (delays : List Nat)
  | fellThrough
  deriving DecidableEq, Repr

/-- The `while attempt < retry_attempts` loop of `connect()`.
`fails i = true` means the backend raises `cx_Oracle.Error` on the
attempt with 0-based index `i`.  On failure the attempt counter is
incremented; if it has reached the budget the error is re-raised,
otherwise the loop sleeps the current delay and doubles it. -/
def connect_loop (fails : Nat → Bool) (retry_attempts : Nat) :
    Nat → Nat → ConnectResult
  | attempt, delay =>
    if h : attempt < retry_attempts then
      if fails attempt then
        if retry_attempts ≤ attempt + 1 then .raised []
        else
          match connect_loop fails retry_attempts (attempt + 1) (delay * 2) with
          | .connected k ds => .connected k (delay :: ds)
          | .raised ds => .raised (delay :: ds)
          | .fellThrough => .fellThrough
      else .connected (attempt + 1) []
    else .fellThrough
  termination_by attempt _ => retry_attempts - attempt

/-- Embedding of `OracleAdapterAsync.connect` with retry budget `retry_attempts`
and initial retry delay `d0`. -/
def connect (retry_attempts d0 : Nat) (fails : Nat → Bool) : ConnectResult :=
  connect_loop fails retry_attempts 0 d0

/-- The doubling-delay sequence `d0, 2*d0, 4*d0, ...` of length `k`. -/
def delay_list (d0 k : Nat) : List Nat :=
  (List.range k).map (fun i => d0 * 2 ^ i)

/-! ## oracle_adapter_async.py: per-table progress bookkeeping -/

/-- The shared counters `_scan_progress` and `_metrics` fields touched
by `_scan_table_with_progress`, plus the rich progress-bar position
(`progress.advance(main_task)`). -/
structure ProgressState where
  progress_completed : Nat
  progress_total : Nat
  tables_completed : Nat
  tables_skipped : Nat
  connection_errors : Nat
  bar_advanced : Nat
  deriving DecidableEq, Repr

/-- Terminal outcome of streaming one table inside
`_scan_table_with_progress`: the stream finished with the collected
matches, or it raised. -/
inductive TableOutcome where
  | ok (found : List MatchRec)
  | exc

/-- Embedding of `OracleAdapterAsync._scan_table_with_progress`: on success the bar
advances and the completed entry of `_scan_progress` and the
tables_completed metric are incremented; on an exception the
table is skipped, the connection_errors and
tables_skipped metrics are incremented and the bar advances, and
an empty match list is returned. -/
def scan_table_with_progress (st : ProgressState) (outcome : TableOutcome) :
    ProgressState × List MatchRec :=
  match outcome with
  | .ok ms =>
    ({ st with
        bar_advanced := st.bar_advanced + 1
        progress_completed := st.progress_completed + 1
        tables_completed := st.tables_completed + 1 }, ms)
  | .exc =>
    ({ st with
        connection_errors := st.connection_errors + 1
        tables_skipped := st.tables_skipped + 1
        bar_advanced := st.bar_advanced + 1 }, [])

/-! ## Concrete data for the cache-staleness scenario -/

/-- A value that survives the early-rejection check: length 14, mixed
letters and digits, no email or SSN shape. -/
def c10_value : List Char := "abc12345678901".toList

/-- A compiled pattern set under which the value matches nothing. -/
def c10_ps1 : List CompiledPattern := [⟨"p1", fun _ => false⟩]

/-- A different compiled pattern set under which the value matches. -/
def c10_ps2 : List CompiledPattern := [⟨"p2", fun _ => true⟩]

/-! # Theorems -/

/-- C10: the value cache is keyed by the hash of the value alone, not
by the active pattern set.  Evaluating `c10_value` under `c10_ps1`
(no hit) memoizes the empty result; re-evaluating the same value under
the different set `c10_ps2` returns the stale memoized empty list,
although evaluating `c10_ps2` from a fresh cache yields a match. -/
theorem c10_cache_ignores_pattern_set :
    optimized_pattern_matching true true true false [] c10_value c10_ps1
      = ([], [(c10_value, [])]) ∧
    optimized_pattern_matching true true true false [(c10_value, [])] c10_value c10_ps2
      = ([], [(c10_value, [])]) ∧
    optimized_pattern_matching true true true false [] c10_value c10_ps2
      = ([⟨"p2", c10_value⟩], [(c10_value, [⟨"p2", c10_value⟩])]) :=
  ⟨rfl, rfl, rfl⟩

/-- C8 counterexample: a scan unit that raises an exception reaches
the terminal skipped state (`tables_skipped` becomes 1, the display
bar advances), yet the shared completed counter of `_scan_progress`
stays 0, contrary to the claim that every terminal transition
increments it. -/
theorem c8_counterexample :
    (scan_table_with_progress ⟨0, 5, 0, 0, 0, 0⟩ .exc).1.tables_skipped = 1 ∧
    (scan_table_with_progress ⟨0, 5, 0, 0, 0, 0⟩ .exc).1.bar_advanced = 1 ∧
    (scan_table_with_progress ⟨0, 5, 0, 0, 0, 0⟩ .exc).1.progress_completed = 0 :=
  ⟨rfl, rfl, rfl⟩

/-- C8 amended: only the successful-completion transition increments
the shared completed counter (together with `tables_completed`); a
unit skipped after an exception advances the display bar and
increments `tables_skipped` and `connection_errors` but leaves the
shared completed counter unchanged.  Both transitions advance the
display bar. -/
theorem c8_amended_terminal_transitions :
    ∀ (st : ProgressState) (ms : List MatchRec),
      (scan_table_with_progress st (.ok ms)).1.progress_completed
          = st.progress_completed + 1 ∧
      (scan_table_with_progress st (.ok ms)).1.tables_completed
          = st.tables_completed + 1 ∧
      (scan_table_with_progress st (.ok ms)).1.bar_advanced
          = st.bar_advanced + 1 ∧
      (scan_table_with_progress st (.ok ms)).2 = ms ∧
      (scan_table_with_progress st .exc).1.progress_completed
          = st.progress_completed ∧
      (scan_table_with_progress st .exc).1.tables_skipped
          = st.tables_skipped + 1 ∧
      (scan_table_with_progress st .exc).1.connection_errors
          = st.connection_errors + 1 ∧
      (scan_table_with_progress st .exc).1.bar_advanced
          = st.bar_advanced + 1 ∧
      (scan_table_with_progress st .exc).2 = [] := by
  intro st ms
  exact ⟨rfl, rfl, rfl, rfl, rfl, rfl, rfl, rfl, rfl⟩

/-- C3 counterexample: the token "key" of the api-key token rule hits
the line "monkey business" as a plain substring of "monkey", although
it does not occur as a whole word and belongs to neither the
connection-string nor the path-prefix family, so no family validator
applies: plain substring occurrence is by itself sufficient. -/
theorem c3_counterexample :
    token_match ("monkey business".toList) ("key".toList) = true ∧
    whole_word (py_lower ("monkey business".toList)) (py_lower ("key".toList)) = false ∧
    conn_tokens.contains (py_lower ("key".toList)) = false ∧
    path_tokens.contains (py_lower ("key".toList)) = false ∧
    token_rules.any (fun r => r.tokens.contains "key") = true := by
  decide

/-- C5 counterexample: a batch duration of 0.6s is slower than the
0.5s target, yet the adjuster leaves the size unchanged instead of
shrinking it by 20%: with size 10000 it returns 10000, not
`max 1000 (10000 * 4 / 5) = 8000`. -/
theorem c5_counterexample :
    adjust_batch_size true 1000 50000 10000 (3/5) = 10000 ∧
    ((3/5 : ℚ) > 1/2) ∧
    (10000 : Nat) ≠ max 1000 (10000 * 4 / 5) := by
  refine ⟨?_, by norm_num, by norm_num⟩
  norm_num [adjust_batch_size]

/-- C5 amended: every fifth batch (and only then) the controller
applies the corrected policy: shrink by 20% (floored at the minimum)
when the duration exceeds 1.5 times the 0.5s target, grow by 20%
(capped at the maximum) when it is below 0.5 times the target, and
leave the size unchanged in the band between. -/
theorem c5_amended_adaptive_policy :
    ∀ (min_b max_b count cur : Nat) (t : ℚ),
      batch_size_step true min_b max_b count cur t
        = (if count % 5 == 0 then adjust_spec min_b max_b cur t else cur) := by
  intro min_b max_b count cur t
  simp only [batch_size_step, adjust_batch_size, adjust_spec, Bool.true_and]
  norm_num

/-- Helper: one adjustment keeps the size inside the configured band
whenever it starts inside it. -/
theorem adjust_batch_size_bounds (a : Bool) (min_b max_b cur : Nat) (t : ℚ)
    (hmm : min_b ≤ max_b) (h1 : min_b ≤ cur) (h2 : cur ≤ max_b) :
    min_b ≤ adjust_batch_size a min_b max_b cur t ∧
      adjust_batch_size a min_b max_b cur t ≤ max_b := by
  have hshrink : cur * 4 / 5 ≤ cur := by omega
  have hgrow : cur ≤ cur * 6 / 5 := by omega
  cases a with
  | false => simp [adjust_batch_size, h1, h2]
  | true =>
    simp only [adjust_batch_size, Bool.not_true]
    rw [if_neg Bool.false_ne_true]
    split
    · exact ⟨le_max_left _ _, max_le hmm (hshrink.trans h2)⟩
    · split
      · exact ⟨le_min hmm (h1.trans hgrow), min_le_left _ _⟩
      · exact ⟨h1, h2⟩

/-- Helper: the guarded per-batch update keeps the size inside the
band whenever it starts inside it. -/
theorem batch_size_step_bounds (a : Bool) (min_b max_b count cur : Nat) (t : ℚ)
    (hmm : min_b ≤ max_b) (h1 : min_b ≤ cur) (h2 : cur ≤ max_b) :
    min_b ≤ batch_size_step a min_b max_b count cur t ∧
      batch_size_step a min_b max_b count cur t ≤ max_b := by
  unfold batch_size_step
  split
  · exact adjust_batch_size_bounds a min_b max_b cur t hmm h1 h2
  · exact ⟨h1, h2⟩

/-- C6: however extreme the observed batch durations, the streaming
loop never drives the per-unit batch size below `min_batch_size` or
above `max_batch_size`, provided the band is nonempty and the seed
size starts inside it (the default seed 10000 lies inside the default
band [1000, 50000]). -/
theorem c6_batch_size_never_escapes_band :
    ∀ (adaptive : Bool) (min_b max_b : Nat) (ts : List ℚ) (count seed : Nat),
      min_b ≤ max_b → min_b ≤ seed → seed ≤ max_b →
      min_b ≤ stream_batch_sizes adaptive min_b max_b count seed ts ∧
        stream_batch_sizes adaptive min_b max_b count seed ts ≤ max_b := by
  intro adaptive min_b max_b ts
  induction ts with
  | nil => intro count seed _ h1 h2; exact ⟨h1, h2⟩
  | cons t rest ih =>
    intro count seed hmm h1 h2
    have hstep := batch_size_step_bounds adaptive min_b max_b (count + 1) seed t hmm h1 h2
    exact ih (count + 1) _ hmm hstep.1 hstep.2

/-- C6 witness: the defaults (band [1000, 50000], seed 10000) with a
wildly varying duration trace stay inside the band. -/
theorem c6_witness :
    1000 ≤ stream_batch_sizes true 1000 50000 0 10000
        [100, 100, 100, 100, 100, 1/1000, 1/1000, 1/1000, 1/1000, 1/1000] ∧
      stream_batch_sizes true 1000 50000 0 10000
        [100, 100, 100, 100, 100, 1/1000, 1/1000, 1/1000, 1/1000, 1/1000] ≤ 50000 :=
  c6_batch_size_never_escapes_band true 1000 50000 _ 0 10000
    (by norm_num) (by norm_num) (by norm_num)

/-- Helper: the doubling-delay list unfolds one step at a time. -/
theorem delay_list_succ (d k : Nat) :
    delay_list d (k + 1) = d :: delay_list (d * 2) k := by
  unfold delay_list
  rw [List.range_succ_eq_map, List.map_cons, List.map_map]
  congr 1
  · simp
  · congr 1
    funext i
    simp only [Function.comp_apply, Nat.succ_eq_add_one, pow_succ]
    ring

/-- Helper: the retry loop re-raises after sleeping the doubling
delays when every remaining attempt fails. -/
theorem connect_loop_all_fail (fails : Nat → Bool) (R : Nat) :
    ∀ (k attempt delay : Nat), R - attempt = k → attempt < R →
      (∀ i, attempt ≤ i → i < R → fails i = true) →
      connect_loop fails R attempt delay
        = .raised (delay_list delay (R - 1 - attempt)) := by
  intro k
  induction k with
  | zero => intro attempt delay hk hlt _; omega
  | succ k ih =>
    intro attempt delay hk hlt hfail
    rw [connect_loop]
    rw [dif_pos hlt, if_pos (hfail attempt le_rfl hlt)]
    by_cases hend : R ≤ attempt + 1
    · rw [if_pos hend]
      have : R - 1 - attempt = 0 := by omega
      rw [this]
      rfl
    · rw [if_neg hend]
      have hrec := ih (attempt + 1) (delay * 2) (by omega) (by omega)
        (fun i h1 h2 => hfail i (by omega) h2)
      rw [hrec]
      have : R - 1 - attempt = (R - 1 - (attempt + 1)) + 1 := by omega
      rw [this, delay_list_succ]

/-- Helper: the retry loop connects on the final budgeted attempt when
all earlier attempts fail and the last one succeeds. -/
theorem connect_loop_last_succeeds (fails : Nat → Bool) (R : Nat) :
    ∀ (k attempt delay : Nat), R - attempt = k → attempt < R →
      (∀ i, attempt ≤ i → i + 1 < R → fails i = true) →
      fails (R - 1) = false →
      connect_loop fails R attempt delay
        = .connected R (delay_list delay (R - 1 - attempt)) := by
  intro k
  induction k with
  | zero => intro attempt delay hk hlt _ _; omega
  | succ k ih =>
    intro attempt delay hk hlt hfail hlast
    rw [connect_loop]
    rw [dif_pos hlt]
    by_cases hend : R ≤ attempt + 1
    · have hattempt : attempt = R - 1 := by omega
      rw [hattempt, if_neg (by simp [hlast])]
      have h1 : R - 1 + 1 = R := by omega
      have h2 : R - 1 - (R - 1) = 0 := by omega
      rw [h1, h2]
      rfl
    · rw [if_pos (hfail attempt le_rfl (by omega)), if_neg hend]
      have hrec := ih (attempt + 1) (delay * 2) (by omega) (by omega)
        (fun i hi1 hi2 => hfail i (by omega) hi2) hlast
      rw [hrec]
      have : R - 1 - attempt = (R - 1 - (attempt + 1)) + 1 := by omega
      rw [this, delay_list_succ]

/-- C4: with a retry budget of `R ≥ 1` attempts and doubling delays
`d0, 2 d0, 4 d0, ...`, a backend failing exactly the first `R - 1`
attempts and succeeding on the last connects (on the R-th attempt,
after sleeping the `R - 1` doubling delays); a backend failing all `R`
attempts makes `connect` re-raise the connection error, again after at
most `R` attempts and `R - 1` doubling sleeps. -/
theorem c4_connect_retry_budget :
    ∀ (R d0 : Nat) (fails : Nat → Bool), 1 ≤ R →
      ((∀ i, i < R - 1 → fails i = true) → fails (R - 1) = false →
        connect R d0 fails = .connected R (delay_list d0 (R - 1))) ∧
      ((∀ i, i < R → fails i = true) →
        connect R d0 fails = .raised (delay_list d0 (R - 1))) := by
  intro R d0 fails hR
  constructor
  · intro hfail hlast
    have := connect_loop_last_succeeds fails R R 0 d0 (by omega) (by omega)
      (fun i _ h2 => hfail i (by omega)) hlast
    simpa [connect] using this
  · intro hfail
    have := connect_loop_all_fail fails R R 0 d0 (by omega) (by omega)
      (fun i _ h2 => hfail i h2)
    simpa [connect] using this

/-- C1: with early rejection enabled, a value is rejected before any
regex evaluation exactly when it is shorter than 10 or longer than
1000 characters, or purely numeric with fewer than 13 digits, or
digit-free — unless it contains both "@" and "." (email shape) or
contains "-" with length 9 or 11 (SSN shape), which are never
rejected; and in the optimized pipeline a rejected value yields the
empty match list with no pattern consulted and the cache untouched. -/
theorem c1_early_rejection :
    (∀ v : List Char,
      early_termination_check true v =
        ((decide (v.length < 10) || decide (v.length > 1000)
            || (py_isdigit v && decide (v.length < 13)) || !has_digit v)
          && !((v.contains '@' && v.contains '.')
               || (v.contains '-' && (v.length == 9 || v.length == 11))))) ∧
    (∀ (value_caching show_all : Bool) (cache : List (List Char × List MatchRec))
        (v : List Char) (ps : List CompiledPattern),
      early_termination_check true v = true →
      optimized_pattern_matching true true value_caching show_all cache v ps
        = ([], cache)) := by
  constructor
  · intro v
    simp only [early_termination_check, Bool.not_true]
    rw [if_neg Bool.false_ne_true]
    split_ifs <;> simp_all <;> tauto
  · intro value_caching show_all cache v ps h
    simp only [optimized_pattern_matching, Bool.not_true]
    rw [if_neg Bool.false_ne_true, if_pos h]

/-- C1 witness: the 4-character digit-free value "abcd" is rejected,
and the optimized pipeline returns no match for it even though the
supplied pattern would match its substring "bc". -/
theorem c1_witness :
    early_termination_check true ("abcd".toList) = true ∧
    optimized_pattern_matching true true true false [] ("abcd".toList)
        [⟨"url", fun s => py_contains s ("bc".toList)⟩] = ([], []) ∧
    py_contains ("abcd".toList) ("bc".toList) = true :=
  ⟨by decide,
   c1_early_rejection.2 true false [] ("abcd".toList)
      [⟨"url", fun s => py_contains s ("bc".toList)⟩] (by decide),
   by decide⟩

/-- C3 amended: a token hits if it occurs as a whole word; otherwise a
plain substring occurrence suffices for tokens outside the
connection-string and path-prefix families, while connection-string
tokens additionally require "://" or "jdbc:" in the line and
path-prefix tokens additionally require a path separator in the
line. -/
theorem c3_amended_token_match :
    ∀ line token, token_match line token = token_match_spec line token := by
  intro line token
  simp only [token_match, token_match_spec]
  cases hw : whole_word (py_lower line) (py_lower token) <;>
    cases hc : py_contains (py_lower line) (py_lower token) <;>
      simp [hw, hc]

/-- Helper: `_add_match` preserves the per-record invariant that the
stored sample values are pairwise distinct after normalization. -/
theorem add_match_preserves_nodup (st : List (String × RuleMatchL))
    (h : ∀ kv ∈ st, (kv.2.values.map normalize_value).Nodup)
    (rname rdisp rconf : String) (value : List Char) (location : String) :
    ∀ kv ∈ add_match st rname rdisp rconf value location,
      (kv.2.values.map normalize_value).Nodup := by
  intro kv hkv
  unfold add_match at hkv
  rw [List.mem_map] at hkv
  obtain ⟨kv0, hkv0, hf⟩ := hkv
  have h0 : (kv0.2.values.map normalize_value).Nodup := by
    by_cases hany :
        (st.any (fun kv => kv.1 == rname ++ ":" ++ location)) = true
    · rw [if_pos hany] at hkv0
      exact h kv0 hkv0
    · rw [if_neg hany, List.mem_append] at hkv0
      rcases hkv0 with hin | hnew
      · exact h kv0 hin
      · rcases List.mem_singleton.mp hnew with rfl
        simp
  subst hf
  by_cases hk : (kv0.1 == rname ++ ":" ++ location) = true
  · rw [if_pos hk]
    by_cases hmem :
        normalize_value value ∈ kv0.2.values.map normalize_value
    · rw [if_pos hmem]
      exact h0
    · rw [if_neg hmem]
      simp only [List.map_append, List.map_cons, List.map_nil]
      rw [List.nodup_append]
      refine ⟨h0, List.nodup_singleton _, ?_⟩
      intro a ha hb
      rw [List.mem_singleton] at hb
      subst hb
      exact hmem ha
  · rw [if_neg hk]
    exact h0

/-- Helper: folding any sequence of `_add_match` calls preserves the
normalized-distinctness invariant on every record. -/
theorem run_add_matches_aux (calls : List AddCall) :
    ∀ st, (∀ kv ∈ st, (kv.2.values.map normalize_value).Nodup) →
      ∀ kv ∈ calls.foldl
          (fun s c => add_match s c.rname c.rdisp c.rconf c.value c.location) st,
        (kv.2.values.map normalize_value).Nodup := by
  induction calls with
  | nil => intro st h kv hkv; exact h kv hkv
  | cons c rest ih =>
    intro st h kv hkv
    rw [List.foldl_cons] at hkv
    exact ih _ (add_match_preserves_nodup st h c.rname c.rdisp c.rconf c.value c.location)
      kv hkv

/-- C2: after any sequence of `_add_match` calls (the only way
`check_line` mutates the match dictionary), every record keyed by
rule and location holds sample values that are pairwise distinct
under normalization (case-folded, whitespace-collapsed): a value is
appended only when its normalized form is not already present. -/
theorem c2_values_normalized_nodup :
    ∀ (calls : List AddCall) (kv : String × RuleMatchL),
      kv ∈ run_add_matches calls →
      (kv.2.values.map normalize_value).Nodup := by
  intro calls kv hkv
  exact run_add_matches_aux calls [] (by intro kv h; cases h) kv hkv

/-- C2 witness: matching "A  B" and then the normalized-equal "a b"
for the same rule at the same location leaves a single stored value,
and its normalized values are duplicate-free. -/
theorem c2_witness :
    (("email:users.name",
        ({ name := "email", display_name := "Email Address", confidence := "high",
           location := "users.name", values := ["A  B".toList] } : RuleMatchL))
      ∈ run_add_matches
        [⟨"email", "Email Address", "high", "A  B".toList, "users.name"⟩,
         ⟨"email", "Email Address", "high", "a b".toList, "users.name"⟩]) ∧
    ((["A  B".toList].map normalize_value).Nodup) :=
  ⟨by decide,
   c2_values_normalized_nodup
     [⟨"email", "Email Address", "high", "A  B".toList, "users.name"⟩,
      ⟨"email", "Email Address", "high", "a b".toList, "users.name"⟩]
     ("email:users.name",
       { name := "email", display_name := "Email Address", confidence := "high",
         location := "users.name", values := ["A  B".toList] })
     (by decide)⟩

/-- C7: a pattern is returned by `get_patterns` exactly when it is a
default pattern surviving the inclusion filter (when one is active) or
the exclusion filter (when only that one is active), or it is the
single ad-hoc custom pattern appended when a raw regex was supplied;
filter names matching no default cause no error, they simply select
nothing. -/
theorem c7_get_patterns_characterization :
    ∀ (opts : ScanOptions) (p : PatternP),
      p ∈ get_patterns opts ↔
        ((p ∈ default_patterns ∧
            (truthy_list opts.only_patterns = true →
              (opts.only_patterns.getD []).contains p.name = true) ∧
            (truthy_list opts.only_patterns = false →
              truthy_list opts.except_patterns = true →
              (opts.except_patterns.getD []).contains p.name = false))
          ∨ (truthy_str opts.pattern = true ∧
              p = ⟨"custom", opts.pattern.getD "", "Custom pattern"⟩)) := by
  intro opts p
  by_cases h1 : truthy_list opts.only_patterns = true <;>
    by_cases h2 : truthy_list opts.except_patterns = true <;>
      by_cases h3 : truthy_str opts.pattern = true <;>
        simp [get_patterns, h1, h2, h3, List.mem_filter, List.mem_append]

/-- C7 witness: with an inclusion filter naming "email" and an
unknown name "no-such-pattern", exactly the email default survives,
and the unknown name is silently ignored. -/
theorem c7_witness :
    (⟨"email", "\\b[a-zA-Z0-9._%+-]+@[a-zA-Z0-9.-]+\\.[a-zA-Z]\x7b2,\x7d\\b",
        "Email address"⟩ : PatternP)
      ∈ get_patterns
          (mkScanOptions false false (some 1000) (some 1) none none (some 1)
            none false "text" (some ["email", "no-such-pattern"]) none) :=
  (c7_get_patterns_characterization
      (mkScanOptions false false (some 1000) (some 1) none none (some 1)
        none false "text" (some ["email", "no-such-pattern"]) none)
      ⟨"email", "\\b[a-zA-Z0-9._%+-]+@[a-zA-Z0-9.-]+\\.[a-zA-Z]\x7b2,\x7d\\b",
        "Email address"⟩).mpr
    (Or.inl ⟨by decide, by decide, by decide⟩)

/-- C9: constructing `ScanOptions` through the declared keyword
`except_` leaves `except_patterns` as None (the field is reset after
the declared assignments), so `get_patterns` applies no exclusion and
returns all defaults; the exclusion only takes effect when the caller
passes the undeclared extra keyword `except_patterns`, which the
trailing kwargs loop assigns after the reset. -/
theorem c9_except_keyword_ineffective :
    ∀ (e : Option (List String)),
      (mkScanOptions false false (some 1000) (some 1) none e (some 1)
          none false "text" none none).except_patterns = none ∧
      get_patterns (mkScanOptions false false (some 1000) (some 1) none e (some 1)
          none false "text" none none) = default_patterns ∧
      (mkScanOptions false false (some 1000) (some 1) none e (some 1)
          none false "text" none (some (some ["email"]))).except_patterns
        = some ["email"] ∧
      get_patterns (mkScanOptions false false (some 1000) (some 1) none e (some 1)
          none false "text" none (some (some ["email"])))
        = default_patterns.filter
            (fun p => !(["email"] : List String).contains p.name) := by
  intro e
  exact ⟨rfl, rfl, rfl, rfl⟩

/-- C4 witness: with budget 3 and initial delay 1, two failures then a
success connect on the third attempt after sleeping 1s and 2s; three
failures raise after the same two sleeps. -/
theorem c4_witness :
    connect 3 1 (fun i => decide (i < 2)) = .connected 3 (delay_list 1 2) ∧
    connect 3 1 (fun _ => true) = .raised (delay_list 1 2) :=
  ⟨(c4_connect_retry_budget 3 1 (fun i => decide (i < 2)) (by norm_num)).1
      (by decide) (by decide),
   (c4_connect_retry_budget 3 1 (fun _ => true) (by norm_num)).2 (by decide)⟩

end PDScan
